import Mathlib

set_option autoImplicit false

/-!
Shallow embedding of the budbee-js client library (src/rest.ts and
src/index.ts) and proofs about it.

Modelling conventions:
* JavaScript strings are Lean `String`s; `Buffer.from(s).toString("base64")`
  is modelled by an explicit UTF-8 encoder followed by a base64 encoder.
* A JavaScript object literal `{a: x, ...over}` is modelled on association
  lists by `objSpread`, which folds `objSet` (replace-in-place or append)
  over the overriding fields, matching the later-key-wins semantics of
  object literals.
* `fetch` is not executed: `RESTClient.request` is split into the pure part
  that builds the outgoing call (`FetchCall`: url, method, headers, body)
  and `RESTClient.handleStatus`, the `.then` callback of src/rest.ts lines
  52-57 that classifies the response by status code.
* Request bodies are represented by the JSON value being stringified
  (`JSON.stringify` at the call boundary is injective on these values).
* The response side of each endpoint method is a `ResponseHandler`
  describing what the method does with the fetched response: nothing
  (`raw`), `res.json()` (`json`), or `res.json()` followed by projecting a
  single field (`jsonField`); `finish` runs a handler on a response given
  the outcome of JSON-parsing its body (the parser itself is external to
  the repository, so it is passed in as an `Option Json`). A field access
  on a parsed object that misses the field yields JavaScript `undefined`,
  modelled as `Json.null`.
-/

/-- JSON values, as produced and consumed by the endpoint methods. -/
inductive Json where
  | null : Json
  | bool (b : Bool) : Json
  | num (n : Int) : Json
  | str (s : String) : Json
  | arr (xs : List Json) : Json
  | obj (fields : List (String × Json)) : Json

/-- JavaScript property access `j.f` on a parsed JSON value. -/
def Json.getField : Json → String → Option Json
  | .obj fs, f => fs.lookup f
  | _, _ => none

/-- UTF-8 byte encoding of a string, as `Buffer.from(s)` produces. -/
def utf8Bytes (s : String) : List Nat :=
  s.data.flatMap fun c =>
    let n := c.toNat
    if n < 0x80 then [n]
    else if n < 0x800 then [0xC0 + n / 0x40, 0x80 + n % 0x40]
    else if n < 0x10000 then
      [0xE0 + n / 0x1000, 0x80 + (n / 0x40) % 0x40, 0x80 + n % 0x40]
    else
      [0xF0 + n / 0x40000, 0x80 + (n / 0x1000) % 0x40,
       0x80 + (n / 0x40) % 0x40, 0x80 + n % 0x40]

/-- The base64 alphabet, indexed by a 6-bit value. -/
def base64Char (n : Nat) : Char :=
  ("ABCDEFGHIJKLMNOPQRSTUVWXYZabcdefghijklmnopqrstuvwxyz0123456789+/").toList.getD n 'A'

/-- Standard base64 of a byte list, with `=` padding. -/
def base64Chunks : List Nat → String
  | [] => ""
  | [a] =>
      String.mk [base64Char (a / 4), base64Char ((a % 4) * 16)] ++ "=="
  | [a, b] =>
      String.mk [base64Char (a / 4), base64Char ((a % 4) * 16 + b / 16),
                 base64Char ((b % 16) * 4)] ++ "="
  | a :: b :: c :: rest =>
      String.mk [base64Char (a / 4), base64Char ((a % 4) * 16 + b / 16),
                 base64Char ((b % 16) * 4 + c / 64), base64Char (c % 64)]
        ++ base64Chunks rest

/-- Model of `Buffer.from(s).toString("base64")` of src/rest.ts line 18. -/
def base64Encode (s : String) : String :=
  base64Chunks (utf8Bytes s)

/-- Assignment `o[k] = v` on an object modelled as an association list:
replaces the value of every existing entry with key `k` in place, otherwise
appends the new entry, exactly as a later duplicate key in a JavaScript
object literal behaves. -/
def objSet {α : Type} (o : List (String × α)) (k : String) (v : α) : List (String × α) :=
  if o.any (fun p => p.1 = k) then
    o.map (fun p => if p.1 = k then (k, v) else p)
  else
    o ++ [(k, v)]

/-- Object spread `{...base, ...over}`: assign each field of `over` onto
`base` in order. -/
def objSpread {α : Type} (base over : List (String × α)) : List (String × α) :=
  over.foldl (fun acc p => objSet acc p.1 p.2) base

/-- Type `Config` of src/types.ts: credentials plus the optional environment
flag (`test?: boolean`, so absent or `false` both mean production). -/
structure Config where
  key : String
  secret : String
  test : Option Bool
deriving DecidableEq, Repr

/-- Type `RequestData` of src/rest.ts lines 3-10.  The `signal` field (an
`AbortSignal`) carries no data relevant to request construction and is
omitted; `auth` is carried verbatim: no code in src/rest.ts reads it. -/
structure RequestData where
  auth : Option Bool := none
  body : Option Json := none
  headers : List (String × String) := []
  method : String
  path : String

/-- Type `Omit<RequestData, "method">`, the argument type of the four verb
helpers of src/rest.ts lines 21-35. -/
structure RequestInit' where
  auth : Option Bool := none
  body : Option Json := none
  headers : List (String × String) := []
  path : String

/-- The literal `{method, ...req}` as built by the verb helpers. -/
def withMethod (m : String) (r : RequestInit') : RequestData :=
  { auth := r.auth, body := r.body, headers := r.headers,
    method := m, path := r.path }

/-- The outgoing HTTP call handed to `fetch` (src/rest.ts lines 46-51). -/
structure FetchCall where
  url : String
  body : Option Json
  headers : List (String × String)
  method : String

/-- An HTTP response as seen by the `.then` callback: status code and raw
body text. -/
structure Response where
  status : Nat
  body : String
deriving DecidableEq, Repr

/-- Production host of src/rest.ts line 40. -/
def prodHost : String := "https://api.budbee.com"

/-- Staging host of src/rest.ts line 39. -/
def stagingHost : String := "https://api.staging.budbee.com"

/-- Class `RESTClient` of src/rest.ts: the stored config and the authorization
token computed in the constructor. -/
structure RESTClient where
  config : Config
  auth : String

/-- The constructor (src/rest.ts lines 16-19): store the config and
compute the token once as base64 of `key:secret`. -/
def RESTClient.make (config : Config) : RESTClient :=
  { config := config,
    auth := base64Encode (config.key ++ ":" ++ config.secret) }

/-- The pure part of `RESTClient.request` (src/rest.ts lines 37-51):
base-URL selection from the stored flag, header construction starting from
the Authorization header with the caller's headers spread on top, and URL
concatenation with a single slash. -/
def RESTClient.request (c : RESTClient) (req : RequestData) : FetchCall :=
  let url := if c.config.test = some true then stagingHost else prodHost
  let headers := objSpread [("Authorization", "Basic " ++ c.auth)] req.headers
  { url := url ++ "/" ++ req.path,
    body := req.body,
    headers := headers,
    method := req.method }

/-- The `.then` callback of src/rest.ts lines 52-57: throw the raw
response if its status is outside [200, 399], otherwise pass it through. -/
def RESTClient.handleStatus (res : Response) : Except Response Response :=
  if res.status < 200 || res.status > 399 then .error res else .ok res

/-- What an endpoint method does with the fetched (successful) response:
return it untouched, parse it with `res.json()`, or parse it and project a
single field of the result. -/
inductive ResponseHandler where
  | raw : ResponseHandler
  | json : ResponseHandler
  | jsonField (field : String) : ResponseHandler

/-- An endpoint method of src/index.ts, reduced to the request descriptor
it hands to the verb helper and the response handling it chains after. -/
structure Endpoint where
  req : RequestData
  handler : ResponseHandler

/-- What an endpoint call produces from a successful response. -/
inductive EndpointResult where
  | rawRes (r : Response) : EndpointResult
  | value (j : Json) : EndpointResult
  | parseError : EndpointResult

/-- Run an endpoint's response handling on a successful response.
`parsed` is the outcome of `res.json()` on the response body (`none` when
the body is not valid JSON); it is only consulted by handlers that call
`res.json()`.  A field projection that misses yields JavaScript
`undefined`, modelled as `Json.null`. -/
def finish (e : Endpoint) (res : Response) (parsed : Option Json) :
    EndpointResult :=
  match e.handler with
  | .raw => .rawRes res
  | .json =>
      match parsed with
      | some j => .value j
      | none => .parseError
  | .jsonField f =>
      match parsed with
      | some j => .value ((j.getField f).getD Json.null)
      | none => .parseError

/-- A calendar date as rendered by the formatter: the year, month and day
a JavaScript `Date` displays in the formatter's time zone. -/
structure CalDate where
  year : Nat
  month : Nat
  day : Nat

/-- Zero-pad a number to two digits, as the formatter does for months and
days. -/
def pad2 (n : Nat) : String :=
  if n < 10 then "0" ++ toString n else toString n

/-- Formatter `dateFmt.format` (src/index.ts line 20): the fixed
`Intl.DateTimeFormat("sv-SE")` formatter renders a date as `YYYY-MM-DD`. -/
def dateFmtFormat (d : CalDate) : String :=
  toString d.year ++ "-" ++ pad2 d.month ++ "-" ++ pad2 d.day

/-- Type `BetweenDates` of src/types.ts. -/
structure BetweenDates where
  fromDate : CalDate
  toDate : CalDate

/-- The `number | BetweenDates` argument of `deliveryWindows`. -/
inductive IntervalArg where
  | count (n : Nat) : IntervalArg
  | between (b : BetweenDates) : IntervalArg

namespace Client

/-- Method `warehouses()` (src/index.ts lines 27-34). -/
def warehouses : Endpoint :=
  { req := withMethod "GET"
      { path := "users/collection-points",
        headers := [("Content-Type", "application/vnd.budbee.users-v1+json")] },
    handler := .json }

/-- Method `warehouseInRegion(postalCode, countryCode)` (src/index.ts lines
42-52); `countryCode` defaults to `"SE"`. -/
def warehouseInRegion (postalCode countryCode : String) : Endpoint :=
  { req := withMethod "GET"
      { path := "postalcodes/validate/" ++ countryCode ++ "/" ++ postalCode,
        headers := [("Content-Type", "application/vnd.budbee.postalcodes-v2+json")] },
    handler := .json }

/-- Method `postalCodes(countryCode)` (src/index.ts lines 59-66); `countryCode`
defaults to `"SE"`. -/
def postalCodes (countryCode : String) : Endpoint :=
  { req := withMethod "GET"
      { path := "postalcodes/" ++ countryCode,
        headers := [("Content-Type", "application/vnd.budbee.postalcodes-v1+json")] },
    handler := .json }

/-- Method `deliveryWindows(postalCode, interval, countryCode)` (src/index.ts
lines 75-91): the interval segment is the number itself, or the two dates
formatted and joined by a slash. -/
def deliveryWindows (postalCode : String) (interval : IntervalArg)
    (countryCode : String) : Endpoint :=
  { req := withMethod "GET"
      { path := "intervals/" ++ countryCode ++ "/" ++ postalCode ++ "/" ++
          (match interval with
           | .count n => toString n
           | .between b =>
               String.intercalate "/"
                 [dateFmtFormat b.fromDate, dateFmtFormat b.toDate]),
        headers := [("Content-Type", "application/vnd.budbee.intervals-v2+json")] },
    handler := .json }

/-- Method `order(orderId)` (src/index.ts lines 98-105). -/
def order (orderId : String) : Endpoint :=
  { req := withMethod "GET"
      { path := "multiple/orders/" ++ orderId,
        headers := [("Content-Type", "application/vnd.budbee.multiple.orders-v1+json")] },
    handler := .json }

/-- Method `createOrder(order)` (src/index.ts lines 112-120); the payload object
is carried as its JSON field list. -/
def createOrder (orderPayload : List (String × Json)) : Endpoint :=
  { req := withMethod "POST"
      { path := "multiple/orders",
        body := some (Json.obj orderPayload),
        headers := [("Content-Type", "application/vnd.budbee.multiple.orders-v2+json")] },
    handler := .json }

/-- Method `updateDeliveryConsumerInfo(orderId, info)` (src/index.ts lines
135-146). -/
def updateDeliveryConsumerInfo (orderId : String)
    (info : List (String × Json)) : Endpoint :=
  { req := withMethod "PUT"
      { path := "multiple/orders/" ++ orderId,
        body := some (Json.obj info),
        headers := [("Content-Type", "application/vnd.budbee.multiple.orders-v1+json")] },
    handler := .json }

/-- Method `cancelOrder(orderId)` (src/index.ts lines 152-159): no `.then` is
chained, so the response body is never parsed. -/
def cancelOrder (orderId : String) : Endpoint :=
  { req := withMethod "DELETE"
      { path := "multiple/orders/" ++ orderId,
        headers := [("Content-Type", "application/vnd.budbee.multiple.orders-v1+json")] },
    handler := .raw }

/-- Method `addParcels(orderId, parcels)` (src/index.ts lines 167-175). -/
def addParcels (orderId : String) (parcels : List Json) : Endpoint :=
  { req := withMethod "POST"
      { path := "multiple/orders/" ++ orderId ++ "/parcels",
        body := some (Json.arr parcels),
        headers := [("Content-Type", "application/vnd.budbee.multiple.orders-v2+json")] },
    handler := .json }

/-- Method `removeParcel(orderId, parcelId)` (src/index.ts lines 182-189):
`parcelId` is a number interpolated into the path; no body parse. -/
def removeParcel (orderId : String) (parcelId : Nat) : Endpoint :=
  { req := withMethod "DELETE"
      { path := "multiple/orders/" ++ orderId ++ "/parcels/" ++ toString parcelId,
        headers := [("Content-Type", "application/vnd.budbee.multiple.orders-v1+json")] },
    handler := .raw }

/-- Method `orderTracker(orderId)` (src/index.ts lines 196-205): parses the body
and projects the `url` field of the `TrackingLink` envelope. -/
def orderTracker (orderId : String) : Endpoint :=
  { req := withMethod "GET"
      { path := "multiple/orders/" ++ orderId ++ "/tracking-url",
        headers := [("Content-Type", "application/vnd.budbee.multiple.orders-v1+json")] },
    handler := .jsonField "url" }

/-- Method `parcelTracker(parcelId)` (src/index.ts lines 212-221). -/
def parcelTracker (parcelId : String) : Endpoint :=
  { req := withMethod "GET"
      { path := "parcels/" ++ parcelId ++ "/tracking-url",
        headers := [("Content-Type", "application/vnd.budbee.parcels-v1+json")] },
    handler := .jsonField "url" }

/-- Method `createPickup(pickup)` (src/index.ts lines 228-236). -/
def createPickup (pickup : List (String × Json)) : Endpoint :=
  { req := withMethod "POST"
      { path := "returns",
        body := some (Json.obj pickup),
        headers := [("Content-Type", "application/vnd.budbee.returns-v1+json")] },
    handler := .json }

/-- Method `createDropOff(dropOff)` (src/index.ts lines 243-251). -/
def createDropOff (dropOff : List (String × Json)) : Endpoint :=
  { req := withMethod "POST"
      { path := "box/return",
        body := some (Json.obj dropOff),
        headers := [("Content-Type", "application/vnd.budbee.standalone-box-returns-v1+json")] },
    handler := .json }

/-- Method `locker(lockerId)` (src/index.ts lines 258-266). -/
def locker (lockerId : String) : Endpoint :=
  { req := withMethod "GET"
      { path := "boxes/" ++ lockerId,
        headers := [("Content-Type", "application/vnd.budbee.boxes-v1+json")] },
    handler := .json }

/-- Method `lockers(countryCode)` (src/index.ts lines 273-285): parses the body
and projects the `lockers` envelope field. -/
def lockers (countryCode : String) : Endpoint :=
  { req := withMethod "GET"
      { path := "boxes/all/" ++ countryCode,
        headers := [("Content-Type", "application/vnd.budbee.boxes-v1+json")] },
    handler := .jsonField "lockers" }

/-- Method `lockersInRegion(postalCode, countryCode)` (src/index.ts lines
293-306). -/
def lockersInRegion (postalCode countryCode : String) : Endpoint :=
  { req := withMethod "GET"
      { path := "boxes/postalcodes/validate/" ++ countryCode ++ "/" ++ postalCode,
        headers := [("Content-Type", "application/vnd.budbee.boxes-v1+json")] },
    handler := .jsonField "lockers" }

/-- The `selectedBox` value of `createBoxOrder`: the locker id string, or
JSON `null` for a `null` locker id (`string | undefined | null`). -/
def selectedBoxVal : Option String → Json
  | some s => Json.str s
  | none => Json.null

/-- Method `createBoxOrder(lockerId, delivery)` (src/index.ts lines 314-329): the
body is the object literal `{...delivery, productCodes: ["DLVBOX"],
boxDelivery: {selectedBox: lockerId}}`, i.e. the payload spread first and
the two fixed fields assigned on top. -/
def createBoxOrder (lockerId : Option String)
    (delivery : List (String × Json)) : Endpoint :=
  { req := withMethod "POST"
      { path := "multiple/orders",
        body := some (Json.obj
          (objSet
            (objSet delivery "productCodes" (Json.arr [Json.str "DLVBOX"]))
            "boxDelivery"
            (Json.obj [("selectedBox", selectedBoxVal lockerId)]))),
        headers := [("Content-Type", "application/vnd.budbee.multiple.orders-v2+json")] },
    handler := .json }

end Client

/-- Issuing an endpoint call: the endpoint's descriptor goes through
`RESTClient.request`. -/
def issue (c : RESTClient) (e : Endpoint) : FetchCall :=
  c.request e.req

/-- One call of every endpoint method of src/index.ts, at arbitrary
arguments. -/
def allEndpoints (postal country orderId lockerId parcelIdS : String)
    (parcelIdN : Nat) (interval : IntervalArg) (lockerSel : Option String)
    (orderP infoP pickupP dropP boxP : List (String × Json))
    (parcels : List Json) : List Endpoint :=
  [ Client.warehouses,
    Client.warehouseInRegion postal country,
    Client.postalCodes country,
    Client.deliveryWindows postal interval country,
    Client.order orderId,
    Client.createOrder orderP,
    Client.updateDeliveryConsumerInfo orderId infoP,
    Client.cancelOrder orderId,
    Client.addParcels orderId parcels,
    Client.removeParcel orderId parcelIdN,
    Client.orderTracker orderId,
    Client.parcelTracker parcelIdS,
    Client.createPickup pickupP,
    Client.createDropOff dropP,
    Client.locker lockerId,
    Client.lockers country,
    Client.lockersInRegion postal country,
    Client.createBoxOrder lockerSel boxP ]

/-! Association-list lookup lemmas for `objSet` and `objSpread`. -/

theorem lookup_cons_of_ne {α : Type} (k k0 : String) (v0 : α) (l : List (String × α))
    (h : k ≠ k0) : ((k0, v0) :: l).lookup k = l.lookup k := by
  rw [List.lookup_cons]
  rw [beq_eq_false_iff_ne.mpr h]

theorem lookup_eq_none_of_no_key {α : Type} (o : List (String × α)) (k : String)
    (h : ∀ p ∈ o, p.1 ≠ k) : o.lookup k = none := by
  rw [List.lookup_eq_none_iff]
  exact fun p hp => bne_iff_ne.mpr (Ne.symm (h p hp))

theorem lookup_map_set {α : Type} (o : List (String × α)) (k : String) (v : α) :
    (o.map (fun p => if p.1 = k then (k, v) else p)).lookup k
      = if o.any (fun p => p.1 = k) then some v else none := by
  induction o with
  | nil => rfl
  | cons hd tl ih =>
      obtain ⟨k0, v0⟩ := hd
      by_cases h0 : k0 = k
      · subst h0
        simp
      · rw [List.map_cons]
        rw [if_neg h0]
        rw [lookup_cons_of_ne _ _ _ _ (fun hh => h0 hh.symm), ih]
        rw [List.any_cons, @decide_eq_false ((k0, v0).1 = k) _ h0, Bool.false_or]

theorem lookup_map_set_ne {α : Type} (o : List (String × α)) (k k' : String) (v : α)
    (h : k' ≠ k) :
    (o.map (fun p => if p.1 = k then (k, v) else p)).lookup k' = o.lookup k' := by
  induction o with
  | nil => rfl
  | cons hd tl ih =>
      obtain ⟨k0, v0⟩ := hd
      rw [List.map_cons]
      by_cases h0 : k0 = k
      · subst h0
        rw [if_pos rfl]
        rw [lookup_cons_of_ne _ _ _ _ h, lookup_cons_of_ne _ _ _ _ h, ih]
      · rw [if_neg h0]
        by_cases h1 : k' = k0
        · subst h1
          simp
        · rw [lookup_cons_of_ne _ _ _ _ h1, lookup_cons_of_ne _ _ _ _ h1, ih]

theorem objSet_lookup_self {α : Type} (o : List (String × α)) (k : String) (v : α) :
    (objSet o k v).lookup k = some v := by
  unfold objSet
  by_cases hc : (o.any (fun p => decide (p.1 = k))) = true
  · rw [if_pos hc, lookup_map_set, if_pos hc]
  · rw [if_neg hc, List.lookup_append]
    rw [lookup_eq_none_of_no_key]
    · simp
    · intro p hp hk
      exact hc (List.any_eq_true.mpr ⟨p, hp, by simpa using hk⟩)

theorem objSet_lookup_ne {α : Type} (o : List (String × α)) (k k' : String) (v : α)
    (h : k' ≠ k) : (objSet o k v).lookup k' = o.lookup k' := by
  unfold objSet
  by_cases hc : (o.any (fun p => decide (p.1 = k))) = true
  · rw [if_pos hc, lookup_map_set_ne _ _ _ _ h]
  · rw [if_neg hc, List.lookup_append]
    have h2 : ([(k, v)] : List (String × α)).lookup k' = none := by
      rw [lookup_eq_none_of_no_key]
      intro p hp
      rcases List.mem_singleton.mp hp with rfl
      exact Ne.symm h
    rw [h2]
    cases o.lookup k' <;> rfl

theorem objSpread_lookup_of_no_key {α : Type} (base l : List (String × α)) (k : String)
    (h : ∀ p ∈ l, p.1 ≠ k) : (objSpread base l).lookup k = base.lookup k := by
  induction l generalizing base with
  | nil => rfl
  | cons hd tl ih =>
      rw [objSpread, List.foldl_cons]
      rw [show (List.foldl (fun acc p => objSet acc p.1 p.2)
            (objSet base hd.1 hd.2) tl) = objSpread (objSet base hd.1 hd.2) tl from rfl]
      rw [ih _ (fun p hp => h p (List.mem_cons_of_mem _ hp))]
      exact objSet_lookup_ne _ _ _ _ (fun hh => h hd (List.mem_cons_self _ _) hh.symm)

theorem objSpread_lookup_of_lookup {α : Type} (base l : List (String × α)) (k : String)
    (v : α) (hnd : (l.map Prod.fst).Nodup) (h : l.lookup k = some v) :
    (objSpread base l).lookup k = some v := by
  induction l generalizing base with
  | nil => simp at h
  | cons hd tl ih =>
      obtain ⟨k0, v0⟩ := hd
      rw [objSpread, List.foldl_cons]
      rw [show (List.foldl (fun acc p => objSet acc p.1 p.2)
            (objSet base k0 v0) tl) = objSpread (objSet base k0 v0) tl from rfl]
      by_cases h0 : k = k0
      · subst h0
        rw [List.lookup_cons_self] at h
        cases h
        have hno : ∀ p ∈ tl, p.1 ≠ k := by
          intro p hp hk
          simp only [List.map_cons, List.nodup_cons] at hnd
          exact hnd.1 (hk ▸ List.mem_map_of_mem Prod.fst hp)
        rw [objSpread_lookup_of_no_key _ _ _ hno]
        exact objSet_lookup_self _ _ _
      · rw [lookup_cons_of_ne _ _ _ _ h0] at h
        simp only [List.map_cons, List.nodup_cons] at hnd
        exact ih _ hnd.2 h

/-! Shared facts about the endpoint methods' headers. -/

theorem allEndpoints_headers_keys (postal country orderId lockerId parcelIdS : String)
    (parcelIdN : Nat) (interval : IntervalArg) (lockerSel : Option String)
    (orderP infoP pickupP dropP boxP : List (String × Json)) (parcels : List Json) :
    ∀ e ∈ allEndpoints postal country orderId lockerId parcelIdS parcelIdN
        interval lockerSel orderP infoP pickupP dropP boxP parcels,
      e.req.headers.map Prod.fst = ["Content-Type"] := by
  intro e he
  simp only [allEndpoints, List.mem_cons, List.not_mem_nil, or_false] at he
  rcases he with rfl|rfl|rfl|rfl|rfl|rfl|rfl|rfl|rfl|rfl|rfl|rfl|rfl|rfl|rfl|rfl|rfl|rfl <;> rfl

/-- C1: for every response to a request issued through the request layer,
a status code in the inclusive range [200, 399] resolves successfully with
the raw response, and any other status code fails with exactly that raw
response object (same status code, no parsing of the error body). -/
theorem claim1_status_range (res : Response) :
    (200 ≤ res.status ∧ res.status ≤ 399 →
      RESTClient.handleStatus res = Except.ok res) ∧
    (¬ (200 ≤ res.status ∧ res.status ≤ 399) →
      RESTClient.handleStatus res = Except.error res) := by
  unfold RESTClient.handleStatus
  constructor
  · intro h
    rw [if_neg]
    simp only [Bool.or_eq_true, decide_eq_true_eq, not_or]
    omega
  · intro h
    rw [if_pos]
    simp only [Bool.or_eq_true, decide_eq_true_eq]
    omega

/-- Witness for C1 at statuses 250 (success), 404 and 199 (failure). -/
theorem claim1_witness :
    RESTClient.handleStatus { status := 250, body := "b" }
      = Except.ok { status := 250, body := "b" } ∧
    RESTClient.handleStatus { status := 404, body := "e" }
      = Except.error { status := 404, body := "e" } ∧
    RESTClient.handleStatus { status := 199, body := "e" }
      = Except.error { status := 199, body := "e" } :=
  ⟨(claim1_status_range { status := 250, body := "b" }).1 (by decide),
   (claim1_status_range { status := 404, body := "e" }).2 (by decide),
   (claim1_status_range { status := 199, body := "e" }).2 (by decide)⟩

/-- C2: the client computes the authorization token once at construction
as base64 of `key:secret`, and every request whose caller headers do not
touch the Authorization key carries `Authorization: Basic base64(key ++
":" ++ secret)`, identically across repeated calls from the same client;
in particular every request issued by an endpoint method carries it. -/
theorem claim2_basic_auth (cfg : Config) (req1 req2 : RequestData)
    (h1 : ∀ p ∈ req1.headers, p.1 ≠ "Authorization")
    (h2 : ∀ p ∈ req2.headers, p.1 ≠ "Authorization") :
    (RESTClient.make cfg).auth = base64Encode (cfg.key ++ ":" ++ cfg.secret) ∧
    ((RESTClient.make cfg).request req1).headers.lookup "Authorization"
      = some ("Basic " ++ base64Encode (cfg.key ++ ":" ++ cfg.secret)) ∧
    ((RESTClient.make cfg).request req1).headers.lookup "Authorization"
      = ((RESTClient.make cfg).request req2).headers.lookup "Authorization" ∧
    (∀ (postal country orderId lockerId parcelIdS : String) (parcelIdN : Nat)
        (interval : IntervalArg) (lockerSel : Option String)
        (orderP infoP pickupP dropP boxP : List (String × Json))
        (parcels : List Json),
      ∀ e ∈ allEndpoints postal country orderId lockerId parcelIdS parcelIdN
          interval lockerSel orderP infoP pickupP dropP boxP parcels,
        (issue (RESTClient.make cfg) e).headers.lookup "Authorization"
          = some ("Basic " ++ base64Encode (cfg.key ++ ":" ++ cfg.secret))) := by
  have key : ∀ (req : RequestData), (∀ p ∈ req.headers, p.1 ≠ "Authorization") →
      ((RESTClient.make cfg).request req).headers.lookup "Authorization"
        = some ("Basic " ++ base64Encode (cfg.key ++ ":" ++ cfg.secret)) := by
    intro req h
    exact (objSpread_lookup_of_no_key
        [("Authorization", "Basic " ++ base64Encode (cfg.key ++ ":" ++ cfg.secret))]
        req.headers "Authorization" h).trans List.lookup_cons_self
  refine ⟨rfl, key req1 h1, (key req1 h1).trans (key req2 h2).symm, ?_⟩
  intro postal country orderId lockerId parcelIdS parcelIdN interval
    lockerSel orderP infoP pickupP dropP boxP parcels e he
  have hkeys := allEndpoints_headers_keys postal country orderId lockerId
    parcelIdS parcelIdN interval lockerSel orderP infoP pickupP dropP boxP
    parcels e he
  apply key
  intro p hp
  have hmem : p.1 ∈ e.req.headers.map Prod.fst := List.mem_map_of_mem _ hp
  rw [hkeys] at hmem
  have h1 : p.1 = "Content-Type" := List.mem_singleton.mp hmem
  rw [h1]
  decide

/-- Witness for C2 at concrete credentials `api:s3cret`. -/
theorem claim2_witness :
    ((RESTClient.make { key := "api", secret := "s3cret", test := none }).request
        { method := "GET", path := "p" }).headers.lookup "Authorization"
      = some "Basic YXBpOnMzY3JldA==" := by
  have h := claim2_basic_auth { key := "api", secret := "s3cret", test := none }
      { method := "GET", path := "p" } { method := "GET", path := "p" }
      (by intro p hp; simp at hp) (by intro p hp; simp at hp)
  rw [h.2.1]
  rfl

/-- C3: a client constructed with `test = true` sends every request to the
staging host; with `test` false or absent, to the production host; the URL
is always the selected base URL, one slash, then the path. -/
theorem claim3_environment (c : RESTClient) (req : RequestData) :
    (c.config.test = some true →
      (c.request req).url = stagingHost ++ "/" ++ req.path) ∧
    (c.config.test ≠ some true →
      (c.request req).url = prodHost ++ "/" ++ req.path) := by
  constructor
  · intro h
    show (if c.config.test = some true then stagingHost else prodHost)
        ++ "/" ++ req.path = stagingHost ++ "/" ++ req.path
    rw [if_pos h]
  · intro h
    show (if c.config.test = some true then stagingHost else prodHost)
        ++ "/" ++ req.path = prodHost ++ "/" ++ req.path
    rw [if_neg h]

/-- Witness for C3: staging for `test = true`, production for absent and
for `false`. -/
theorem claim3_witness :
    ((RESTClient.make { key := "k", secret := "s", test := some true }).request
        { method := "GET", path := "x" }).url = "https://api.staging.budbee.com/x" ∧
    ((RESTClient.make { key := "k", secret := "s", test := none }).request
        { method := "GET", path := "x" }).url = "https://api.budbee.com/x" ∧
    ((RESTClient.make { key := "k", secret := "s", test := some false }).request
        { method := "GET", path := "x" }).url = "https://api.budbee.com/x" := by
  refine ⟨?_, ?_, ?_⟩
  · rw [(claim3_environment _ _).1 rfl]
    rfl
  · rw [(claim3_environment _ _).2 (by decide)]
    rfl
  · rw [(claim3_environment _ _).2 (by decide)]
    rfl

/-- C4: the final header set starts from the Authorization header and
applies caller headers on top, so caller headers win on key collision;
and since no endpoint method supplies an Authorization key, every request
issued by an endpoint method carries the authorization header. -/
theorem claim4_header_merge (c : RESTClient) (req : RequestData) :
    ((req.headers.map Prod.fst).Nodup →
      ∀ k v, req.headers.lookup k = some v →
        (c.request req).headers.lookup k = some v) ∧
    ((∀ p ∈ req.headers, p.1 ≠ "Authorization") →
      (c.request req).headers.lookup "Authorization"
        = some ("Basic " ++ c.auth)) ∧
    (∀ (postal country orderId lockerId parcelIdS : String) (parcelIdN : Nat)
        (interval : IntervalArg) (lockerSel : Option String)
        (orderP infoP pickupP dropP boxP : List (String × Json))
        (parcels : List Json),
      ∀ e ∈ allEndpoints postal country orderId lockerId parcelIdS parcelIdN
          interval lockerSel orderP infoP pickupP dropP boxP parcels,
        (∀ p ∈ e.req.headers, p.1 ≠ "Authorization") ∧
        (issue c e).headers.lookup "Authorization"
          = some ("Basic " ++ c.auth)) := by
  have auth_present : ∀ (r : RequestData),
      (∀ p ∈ r.headers, p.1 ≠ "Authorization") →
      (c.request r).headers.lookup "Authorization"
        = some ("Basic " ++ c.auth) := by
    intro r h
    exact (objSpread_lookup_of_no_key [("Authorization", "Basic " ++ c.auth)]
      r.headers "Authorization" h).trans List.lookup_cons_self
  refine ⟨?_, auth_present req, ?_⟩
  · intro hnd k v hk
    exact objSpread_lookup_of_lookup _ _ _ _ hnd hk
  · intro postal country orderId lockerId parcelIdS parcelIdN interval
      lockerSel orderP infoP pickupP dropP boxP parcels e he
    have hkeys := allEndpoints_headers_keys postal country orderId lockerId
      parcelIdS parcelIdN interval lockerSel orderP infoP pickupP dropP boxP
      parcels e he
    have hno : ∀ p ∈ e.req.headers, p.1 ≠ "Authorization" := by
      intro p hp
      have hmem : p.1 ∈ e.req.headers.map Prod.fst := List.mem_map_of_mem _ hp
      rw [hkeys] at hmem
      have h1 : p.1 = "Content-Type" := List.mem_singleton.mp hmem
      rw [h1]
      decide
    exact ⟨hno, auth_present e.req hno⟩

/-- Witness for C4: a caller-supplied Authorization header wins, and a
concrete endpoint call carries the computed authorization header. -/
theorem claim4_witness :
    ((RESTClient.make { key := "k", secret := "s", test := none }).request
        { method := "GET", path := "x",
          headers := [("Authorization", "Basic OVERRIDE")] }).headers.lookup
        "Authorization" = some "Basic OVERRIDE" ∧
    (issue (RESTClient.make { key := "k", secret := "s", test := none })
        Client.warehouses).headers.lookup "Authorization"
      = some "Basic azpz" := by
  constructor
  · exact (claim4_header_merge
        (RESTClient.make { key := "k", secret := "s", test := none })
        { method := "GET", path := "x",
          headers := [("Authorization", "Basic OVERRIDE")] }).1
      (by decide) "Authorization" "Basic OVERRIDE" rfl
  · have h := (claim4_header_merge
        (RESTClient.make { key := "k", secret := "s", test := none })
        { method := "GET", path := "x" }).2.2
      "p" "SE" "o" "l" "pp" 0 (.count 1) none [] [] [] [] [] []
      Client.warehouses (by simp [allEndpoints])
    exact h.2

/-- C5: `deliveryWindows` with a numeric interval builds the path
`intervals/{country}/{postal}/{n}`, and with a date range builds
`intervals/{country}/{postal}/{from}/{to}` with both dates formatted
`YYYY-MM-DD` by the fixed formatter (`from` before `to`). -/
theorem claim5_delivery_windows (postal country : String) (n : Nat)
    (b : BetweenDates) :
    (Client.deliveryWindows postal (.count n) country).req.path
      = "intervals/" ++ country ++ "/" ++ postal ++ "/" ++ toString n ∧
    (Client.deliveryWindows postal (.between b) country).req.path
      = "intervals/" ++ country ++ "/" ++ postal ++ "/"
          ++ dateFmtFormat b.fromDate ++ "/" ++ dateFmtFormat b.toDate ∧
    dateFmtFormat { year := 2024, month := 1, day := 7 } = "2024-01-07" ∧
    (Client.deliveryWindows "11122"
        (.between { fromDate := { year := 2024, month := 1, day := 1 },
                    toDate := { year := 2024, month := 1, day := 7 } })
        "SE").req.path = "intervals/SE/11122/2024-01-01/2024-01-07" := by
  refine ⟨rfl, ?_, by decide, by decide⟩
  show "intervals/" ++ country ++ "/" ++ postal ++ "/"
      ++ String.intercalate "/" [dateFmtFormat b.fromDate, dateFmtFormat b.toDate]
    = _
  rw [show String.intercalate "/"
        [dateFmtFormat b.fromDate, dateFmtFormat b.toDate]
      = dateFmtFormat b.fromDate ++ "/" ++ dateFmtFormat b.toDate from rfl]
  rw [← String.append_assoc, ← String.append_assoc]

/-- C6: `createBoxOrder(lockerId, payload)` POSTs to `multiple/orders`
with a body equal to the payload merged with `productCodes: ["DLVBOX"]`
and `boxDelivery: {selectedBox: lockerId}` (the injected fields win, all
other payload fields pass through unchanged). -/
theorem claim6_create_box_order (lockerSel : Option String)
    (delivery : List (String × Json)) :
    (Client.createBoxOrder lockerSel delivery).req.method = "POST" ∧
    (Client.createBoxOrder lockerSel delivery).req.path = "multiple/orders" ∧
    ∃ fields,
      (Client.createBoxOrder lockerSel delivery).req.body
        = some (Json.obj fields) ∧
      fields.lookup "productCodes" = some (Json.arr [Json.str "DLVBOX"]) ∧
      fields.lookup "boxDelivery"
        = some (Json.obj [("selectedBox", Client.selectedBoxVal lockerSel)]) ∧
      ∀ k, k ≠ "productCodes" → k ≠ "boxDelivery" →
        fields.lookup k = delivery.lookup k := by
  refine ⟨rfl, rfl, _, rfl, ?_, ?_, ?_⟩
  · rw [objSet_lookup_ne _ _ _ _ (by decide)]
    exact objSet_lookup_self _ _ _
  · exact objSet_lookup_self _ _ _
  · intro k h1 h2
    rw [objSet_lookup_ne _ _ _ _ h2, objSet_lookup_ne _ _ _ _ h1]

/-- Witness for C6 at `lockerId = "L1"` and a one-field payload. -/
theorem claim6_witness :
    ∃ fields,
      (Client.createBoxOrder (some "L1") [("cartId", Json.str "c")]).req.body
        = some (Json.obj fields) ∧
      fields.lookup "productCodes" = some (Json.arr [Json.str "DLVBOX"]) ∧
      fields.lookup "boxDelivery"
        = some (Json.obj [("selectedBox", Json.str "L1")]) ∧
      fields.lookup "cartId" = some (Json.str "c") := by
  obtain ⟨fields, hb, h1, h2, h3⟩ :=
    (claim6_create_box_order (some "L1") [("cartId", Json.str "c")]).2.2
  refine ⟨fields, hb, h1, h2, ?_⟩
  rw [h3 "cartId" (by decide) (by decide)]
  rfl

/-- C7: the envelope-unwrapping endpoints return exactly the bare payload
field: `lockers`/`lockersInRegion` unwrap the `lockers` array and
`orderTracker`/`parcelTracker` unwrap the `url` string. -/
theorem claim7_envelope_unwrap (country postal oid pid : String)
    (xs : List Json) (u : String) (res : Response) :
    finish (Client.lockers country) res
        (some (Json.obj [("lockers", Json.arr xs)]))
      = .value (Json.arr xs) ∧
    finish (Client.lockersInRegion postal country) res
        (some (Json.obj [("lockers", Json.arr xs)]))
      = .value (Json.arr xs) ∧
    finish (Client.orderTracker oid) res
        (some (Json.obj [("url", Json.str u)]))
      = .value (Json.str u) ∧
    finish (Client.parcelTracker pid) res
        (some (Json.obj [("url", Json.str u)]))
      = .value (Json.str u) :=
  ⟨rfl, rfl, rfl, rfl⟩

/-- C8 counterexample: two distinct operations (get order, a GET, and
cancel order, a DELETE) send the very same media type string, so the media
type is not unique per endpoint. -/
theorem claim8_counterexample :
    (Client.order "o1").req.headers.lookup "Content-Type"
      = (Client.cancelOrder "o1").req.headers.lookup "Content-Type" ∧
    (Client.order "o1").req.headers.lookup "Content-Type"
      = some "application/vnd.budbee.multiple.orders-v1+json" ∧
    (Client.order "o1").req.method ≠ (Client.cancelOrder "o1").req.method :=
  ⟨rfl, rfl, by decide⟩

/-- C8 amended: every endpoint method sets exactly one required header,
a Content-Type carrying a versioned vendor media type of the form
`application/vnd.budbee.{resource-version}+json`; the media type string is
not unique per operation (operations of the same resource family and
version share it). -/
theorem claim8_content_type (postal country orderId lockerId parcelIdS : String)
    (parcelIdN : Nat) (interval : IntervalArg) (lockerSel : Option String)
    (orderP infoP pickupP dropP boxP : List (String × Json))
    (parcels : List Json) :
    ∀ e ∈ allEndpoints postal country orderId lockerId parcelIdS parcelIdN
        interval lockerSel orderP infoP pickupP dropP boxP parcels,
      e.req.headers.map Prod.fst = ["Content-Type"] ∧
      ∃ mid, e.req.headers.lookup "Content-Type"
        = some ("application/vnd.budbee." ++ mid ++ "+json") := by
  intro e he
  refine ⟨allEndpoints_headers_keys postal country orderId lockerId parcelIdS
    parcelIdN interval lockerSel orderP infoP pickupP dropP boxP parcels e he,
    ?_⟩
  simp only [allEndpoints, List.mem_cons, List.not_mem_nil, or_false] at he
  rcases he with rfl|rfl|rfl|rfl|rfl|rfl|rfl|rfl|rfl|rfl|rfl|rfl|rfl|rfl|rfl|rfl|rfl|rfl
  · exact ⟨"users-v1", rfl⟩
  · exact ⟨"postalcodes-v2", rfl⟩
  · exact ⟨"postalcodes-v1", rfl⟩
  · exact ⟨"intervals-v2", rfl⟩
  · exact ⟨"multiple.orders-v1", rfl⟩
  · exact ⟨"multiple.orders-v2", rfl⟩
  · exact ⟨"multiple.orders-v1", rfl⟩
  · exact ⟨"multiple.orders-v1", rfl⟩
  · exact ⟨"multiple.orders-v2", rfl⟩
  · exact ⟨"multiple.orders-v1", rfl⟩
  · exact ⟨"multiple.orders-v1", rfl⟩
  · exact ⟨"parcels-v1", rfl⟩
  · exact ⟨"returns-v1", rfl⟩
  · exact ⟨"standalone-box-returns-v1", rfl⟩
  · exact ⟨"boxes-v1", rfl⟩
  · exact ⟨"boxes-v1", rfl⟩
  · exact ⟨"boxes-v1", rfl⟩
  · exact ⟨"multiple.orders-v2", rfl⟩

/-- Witness for C8 (amended) at the warehouses endpoint. -/
theorem claim8_witness :
    Client.warehouses.req.headers.map Prod.fst = ["Content-Type"] ∧
    ∃ mid, Client.warehouses.req.headers.lookup "Content-Type"
      = some ("application/vnd.budbee." ++ mid ++ "+json") :=
  claim8_content_type "p" "SE" "o" "l" "pp" 0 (.count 1) none [] [] [] [] [] []
    Client.warehouses (by simp [allEndpoints])

/-- C9: `cancelOrder` issues DELETE `multiple/orders/{id}`, `removeParcel`
issues DELETE `multiple/orders/{id}/parcels/{parcelId}`, and neither
parses a response body as JSON: whatever the body (even one that fails to
parse, `parsed = none`), the raw response is returned. -/
theorem claim9_delete_no_parse (oid : String) (pid : Nat) (res : Response)
    (parsed : Option Json) :
    (Client.cancelOrder oid).req.method = "DELETE" ∧
    (Client.cancelOrder oid).req.path = "multiple/orders/" ++ oid ∧
    (Client.removeParcel oid pid).req.method = "DELETE" ∧
    (Client.removeParcel oid pid).req.path
      = "multiple/orders/" ++ oid ++ "/parcels/" ++ toString pid ∧
    finish (Client.cancelOrder oid) res parsed = .rawRes res ∧
    finish (Client.removeParcel oid pid) res parsed = .rawRes res :=
  ⟨rfl, rfl, rfl, rfl, rfl, rfl⟩

/-- C10: the `auth` field of the request descriptor has no effect: the
request built is identical for any two values of the field, and (by C4,
whose statement is independent of `auth`) the Authorization header is
attached in all cases. -/
theorem claim10_auth_field_unused (c : RESTClient) (req : RequestData)
    (b1 b2 : Option Bool) :
    c.request { req with auth := b1 } = c.request { req with auth := b2 } :=
  rfl
